import Mathlib

/-!
Verification of the simulation core of the retro UFO arcade game.

The definitions below are a shallow embedding of the game's per-frame
simulation code: the health/game-over logic of `GameStateManager`
(`updateHealth`, `endGame`) together with `damagePlayer` from the main
game file, the attacker spawn-interval update performed on each
successful abduction, the particle engine (`ParticleSystem.update`,
`updateParticles`, `stopEmitter`), the tractor-beam abduction state
machine for a single creature, the player-craft movement update
(`updateUFO`), and the jet/missile update and collision passes with
their JavaScript `Array.prototype.forEach` + `splice` traversal
semantics.

Numeric conventions: exact arithmetic (ℚ, ℤ, ℕ, and ℝ where the code
normalizes vectors or rescales by a vector norm) stands in for IEEE
doubles.  Comparisons of Euclidean distances against nonnegative
thresholds, `dist < r` or `dist > r`, are embedded as the equivalent
squared comparisons `distSq < r^2` / `distSq > r^2` wherever the code
uses `THREE.Vector3.distanceTo` or `THREE.Vector2.length` only inside
such a comparison; this is exact for real-number semantics since both
sides are nonnegative.
-/

namespace UfoGame

/-! ### Game constants, from the top of the main game file -/

noncomputable def MAX_SPEED : ℝ := 1 / 2

noncomputable def ACCELERATION : ℝ := 1 / 100

noncomputable def DECELERATION : ℝ := 98 / 100

noncomputable def HOVER_SPEED : ℝ := 5 / 1000

noncomputable def HOVER_HEIGHT : ℝ := 1 / 10

noncomputable def GAME_BOUNDS : ℝ := 200

def BEAM_RANGE : ℚ := 10

def BEAM_STRENGTH : ℚ := 1 / 20

noncomputable def MISSILE_SPEED : ℝ := 1 / 2

def SPAWN_INTERVAL_BASE : ℚ := 5000

def SPAWN_INTERVAL_MIN : ℚ := 1000

def SPAWN_RATE_INCREASE : ℚ := 1 / 10

/-! ### GameStateManager: health, score and the game-over transition.

The DOM/screen bookkeeping of `changeState` is projected away; what the
model keeps is the current state tag, the integer health and score, and
a counter of `endGame()` invocations (`endGameCount`), which is the
"player destroyed" terminal notification of the spec (each `endGame`
call saves the high score and switches to the game-over screen). -/

inductive GState where
  | start
  | playing
  | paused
  | gameOver
  | help
deriving DecidableEq, Repr

structure GameState where
  score : ℤ
  health : ℤ
  state : GState
  endGameCount : ℕ
deriving DecidableEq, Repr

/-- State produced by GameStateManager.startGame: score 0, health 3,
state PLAYING. -/
def initGameState : GameState :=
  { score := 0, health := 3, state := GState.playing, endGameCount := 0 }

/-- GameStateManager.endGame: saves the high score and enters the
GAME_OVER state.  Each invocation is counted. -/
def endGame (gs : GameState) : GameState :=
  { gs with state := GState.gameOver, endGameCount := gs.endGameCount + 1 }

/-- GameStateManager.updateHealth: store the new health and, if it is
zero or below, end the game. -/
def updateHealth (newHealth : ℤ) (gs : GameState) : GameState :=
  let gs1 := { gs with health := newHealth }
  if gs1.health ≤ 0 then endGame gs1 else gs1

/-- The main file damagePlayer: decrement health through
`updateHealth`, then run its own health-depletion check, which calls
`endGame` a second time when health is already at or below zero.
Visual/audio feedback (blinking, screen shake, explosion) is projected
away. -/
def damagePlayer (gs : GameState) : GameState :=
  let gs1 := updateHealth (gs.health - 1) gs
  if gs1.health ≤ 0 then endGame gs1 else gs1

/-- GameStateManager.isGameActive: true exactly in the PLAYING state. -/
def isGameActive (gs : GameState) : Bool :=
  gs.state = GState.playing

/-- One animation frame projected onto its player-damage effect: when
the game is active, the collision pass lands `n` hits, each one a
`damagePlayer` call; an inactive frame does nothing (the animate loop
gates all simulation on `isGameActive`).  Hits within one active frame
are all processed even if the game ends mid-frame, exactly as the
`checkCollisions` traversal keeps running after `endGame`. -/
def animFrameHits (n : ℕ) (gs : GameState) : GameState :=
  if isGameActive gs then (fun s => damagePlayer s)^[n] gs else gs

/-- A run of animation frames, each with its number of player hits. -/
def runFrames (hits : List ℕ) (gs : GameState) : GameState :=
  hits.foldl (fun s n => animFrameHits n s) gs

/-! ### SpawnScheduler: the attacker spawn interval. -/

/-- Update of `currentSpawnInterval` performed on every successful cow
abduction inside `updateTractorBeam`. -/
def abductionIntervalUpdate (currentInterval : ℚ) : ℚ :=
  max SPAWN_INTERVAL_MIN (currentInterval * (1 - SPAWN_RATE_INCREASE))

/-- The spawn interval after `n` successful abductions since the last
game (re)start; `startGame` resets the interval to
`SPAWN_INTERVAL_BASE`. -/
def intervalAfterAbductions (n : ℕ) : ℚ :=
  (fun c => abductionIntervalUpdate c)^[n] SPAWN_INTERVAL_BASE

/-! ### ParticleSystem: emitters and the per-frame particle update.

An emitter is projected onto the fields the engine's lifecycle logic
reads and writes: the per-particle ages (the `lifetime` buffer
attribute, an integer counter starting at 0 and incremented by 1),
the profile lifetime, the one-shot and active flags, and the emission
counter of continuous emitters.  Particle positions, velocities,
colors, sizes and opacities are carried by the same loop but are never
read by the removal or activity decisions, so they are omitted. -/

structure Emitter where
  ages : List ℕ
  lifetime : ℕ
  oneShot : Bool
  active : Bool
  emissionRate : ℕ
  emissionCounter : ℕ
deriving DecidableEq, Repr

/-- Per-particle age transition of `ParticleSystem.updateParticles`
given the freshly advanced emission counter: a live particle
(`age < lifetime`) integrates and ages by one; an expired particle of a
continuous emitter is reset to age 0 on an emission tick and then aged
by the shared increment, ending at 1; all other expired particles are
left untouched. -/
def particleAgeStep (oneShot : Bool) (lifetime : ℕ) (counter : ℕ) (a : ℕ) : ℕ :=
  if a < lifetime then a + 1
  else if oneShot = false ∧ counter = 0 then 1
  else a

/-- ParticleSystem.updateParticles: advance the emission counter
modulo the emission rate, then update every particle. -/
def updateParticles (e : Emitter) : Emitter :=
  let counter := (e.emissionCounter + 1) % e.emissionRate
  { e with
    emissionCounter := counter,
    ages := e.ages.map (particleAgeStep e.oneShot e.lifetime counter) }

/-- The all-particles-dead test of `ParticleSystem.update`: every entry
of the lifetime buffer has reached the profile lifetime. -/
def allParticlesDead (e : Emitter) : Bool :=
  e.ages.all (fun a => decide (e.lifetime ≤ a))

/-- The body of the `ParticleSystem.update` loop for one emitter:
inactive emitters are skipped entirely; an active emitter runs
`updateParticles`, and an active one-shot emitter whose particles are
then all dead is removed from the list (its scene resource released),
signalled here by `none`. -/
def updateEmitterStep (e : Emitter) : Option Emitter :=
  if e.active then
    if (updateParticles e).oneShot && allParticlesDead (updateParticles e) then none
    else some (updateParticles e)
  else some e

/-- ParticleSystem.update: the source iterates the emitter array
backward (`for i = length - 1; i >= 0; i--`) and splices only at the
current index, so every emitter is visited exactly once and the pass is
equivalent to this `filterMap`. -/
def particleSystemUpdate (l : List Emitter) : List Emitter :=
  l.filterMap updateEmitterStep

/-- ParticleSystem.stopEmitter: clears the active flag and nothing
else. -/
def stopEmitter (e : Emitter) : Emitter :=
  { e with active := false }

/-- ParticleSystem.removeEmitter: `indexOf` + `splice(index, 1)`
removes the first occurrence of the emitter from the list. -/
def removeEmitter (e : Emitter) (l : List Emitter) : List Emitter :=
  l.erase e

/-! ### BeamAbductionStateMachine: one creature under the tractor beam.

This embeds the per-cow body of `updateTractorBeam` for frames in which
the beam is active (`tractorBeam.visible`).  The horizontal range test
`new THREE.Vector2(dx, dz).length() < BEAM_RANGE / 2` and the
completion test `cow.position.distanceTo(ufo.position) < 3` are
embedded squared. -/

structure Vec3Q where
  x : ℚ
  y : ℚ
  z : ℚ
deriving DecidableEq, Repr

/-- Squared length of the horizontal (x, z) offset between two points. -/
def horizDistSq (a b : Vec3Q) : ℚ :=
  (a.x - b.x) ^ 2 + (a.z - b.z) ^ 2

/-- Squared Euclidean distance between two points. -/
def distSqQ (a b : Vec3Q) : ℚ :=
  (a.x - b.x) ^ 2 + (a.y - b.y) ^ 2 + (a.z - b.z) ^ 2

structure Cow where
  pos : Vec3Q
  rotY : ℚ
  isBeingAbducted : Bool
  abductionProgress : ℚ
deriving DecidableEq, Repr

/-- THREE.MathUtils.lerp. -/
def lerp (a b t : ℚ) : ℚ :=
  a + (b - a) * t

/-- Eligibility test of the Idle to BeingAbducted transition: the cow
is horizontally within half the beam range of the player and below the
player's altitude. -/
def inBeam (ufo : Vec3Q) (c : Cow) : Prop :=
  horizDistSq c.pos ufo < (BEAM_RANGE / 2) ^ 2 ∧ c.pos.y < ufo.y

instance (ufo : Vec3Q) (c : Cow) : Decidable (inBeam ufo c) := by
  unfold inBeam
  infer_instance

/-- One beam-active frame for a single cow, the per-cow body of
`updateTractorBeam`: an idle cow inside the beam volume enters the
BeingAbducted state with progress reset to 0; an abducted cow gains
`BEAM_STRENGTH` progress, is lerped toward the point one unit below the
player with factor `progress * 0.05`, spins by 0.05, and completes
(removal from the registry, signalled by `none`) once within distance 3
of the player. -/
def updateTractorBeamCow (ufo : Vec3Q) (c : Cow) : Option Cow :=
  if c.isBeingAbducted = false then
    if inBeam ufo c then
      some { c with isBeingAbducted := true, abductionProgress := 0 }
    else
      some c
  else
    let p := c.abductionProgress + BEAM_STRENGTH
    let targetY := ufo.y - 1
    let newPos : Vec3Q :=
      { x := lerp c.pos.x ufo.x (p * (5 / 100)),
        y := lerp c.pos.y targetY (p * (5 / 100)),
        z := lerp c.pos.z ufo.z (p * (5 / 100)) }
    let c1 : Cow :=
      { pos := newPos, rotY := c.rotY + 5 / 100,
        isBeingAbducted := true, abductionProgress := p }
    if distSqQ c1.pos ufo < 3 ^ 2 then none else some c1

/-- Iterated beam-active frames on one cow; `ufoSeq n` is the player
position during frame `n + 1`, and `none` is absorbing (the cow was
abducted and removed). -/
def beamIter (ufoSeq : ℕ → Vec3Q) : ℕ → Cow → Option Cow
  | 0, c => some c
  | n + 1, c => (beamIter ufoSeq n c).bind (updateTractorBeamCow (ufoSeq n))

/-! ### Real-valued 3D vectors for the movement controller.

The player-physics clamp rescales the velocity by
`maxSpeed / |velocity|` and the jet homing step normalizes the offset
to the player, so this part of the embedding lives over ℝ with the
genuine Euclidean norm. -/

structure Vec3 where
  x : ℝ
  y : ℝ
  z : ℝ

/-- Componentwise vector sum, THREE.Vector3.add. -/
noncomputable def vadd (a b : Vec3) : Vec3 :=
  ⟨a.x + b.x, a.y + b.y, a.z + b.z⟩

/-- Componentwise vector difference, THREE.Vector3.subVectors. -/
noncomputable def vsub (a b : Vec3) : Vec3 :=
  ⟨a.x - b.x, a.y - b.y, a.z - b.z⟩

/-- Scalar multiple, THREE.Vector3.multiplyScalar. -/
noncomputable def vsmul (c : ℝ) (v : Vec3) : Vec3 :=
  ⟨c * v.x, c * v.y, c * v.z⟩

/-- Squared Euclidean norm. -/
noncomputable def normSq (v : Vec3) : ℝ :=
  v.x ^ 2 + v.y ^ 2 + v.z ^ 2

/-- Euclidean norm, THREE.Vector3.length. -/
noncomputable def vnorm (v : Vec3) : ℝ :=
  Real.sqrt (normSq v)

/-- Squared Euclidean distance between two points; comparisons of
THREE.Vector3.distanceTo against a nonnegative threshold are embedded
through it. -/
noncomputable def distSq (a b : Vec3) : ℝ :=
  normSq (vsub a b)

/-- THREE.Vector3.normalize: rescale to unit length. -/
noncomputable def vnormalize (v : Vec3) : Vec3 :=
  vsmul (1 / vnorm v) v

/-! ### MovementController: the player craft update (updateUFO).

The update keeps the source's order: derive the acceleration from the
held keys, integrate and damp the velocity, clamp its norm to
`MAX_SPEED`, integrate the position, clamp to the floor (zeroing the
vertical velocity), bounce off the square play boundary (inverting and
halving the clamped axis's velocity), and apply the sinusoidal hover
offset.  The yaw/bank interpolation and the engine-sound hook read the
velocity but never write it and are projected away. -/

structure KeysState where
  arrowUp : Bool
  arrowDown : Bool
  arrowLeft : Bool
  arrowRight : Bool
  space : Bool
  shiftKey : Bool
deriving DecidableEq, Repr

structure UFOState where
  pos : Vec3
  vel : Vec3
  hoverOffset : ℝ
  hoverDirection : ℝ

/-- Acceleration derived from the held directional and vertical keys. -/
noncomputable def ufoAcceleration (k : KeysState) : Vec3 :=
  { x := (if k.arrowLeft then -ACCELERATION else 0)
       + (if k.arrowRight then ACCELERATION else 0),
    y := (if k.space then ACCELERATION else 0)
       + (if k.shiftKey then -ACCELERATION else 0),
    z := (if k.arrowUp then -ACCELERATION else 0)
       + (if k.arrowDown then ACCELERATION else 0) }

/-- Velocity after acceleration and drag:
`velocity.add(acceleration); velocity.multiplyScalar(DECELERATION)`. -/
noncomputable def dampedVelocity (k : KeysState) (v : Vec3) : Vec3 :=
  vsmul DECELERATION (vadd v (ufoAcceleration k))

/-- Speed clamp: when the velocity norm exceeds `MAX_SPEED`, the
velocity is normalized and rescaled to `MAX_SPEED`. -/
noncomputable def clampSpeed (v : Vec3) : Vec3 :=
  if vnorm v > MAX_SPEED then vsmul (MAX_SPEED / vnorm v) v else v

/-- Floor clamp: hold the craft at altitude at least 5, zeroing the
vertical velocity on contact. -/
noncomputable def floorClamp (p v : Vec3) : Vec3 × Vec3 :=
  if p.y < 5 then ({ p with y := 5 }, { v with y := 0 }) else (p, v)

/-- Boundary bounce on the x axis: clamp to `GAME_BOUNDS` and invert
the axis velocity scaled by -0.5. -/
noncomputable def boundX (p v : Vec3) : Vec3 × Vec3 :=
  if |p.x| > GAME_BOUNDS then
    ({ p with x := Real.sign p.x * GAME_BOUNDS }, { v with x := v.x * (-(1 / 2)) })
  else (p, v)

/-- Boundary bounce on the z axis. -/
noncomputable def boundZ (p v : Vec3) : Vec3 × Vec3 :=
  if |p.z| > GAME_BOUNDS then
    ({ p with z := Real.sign p.z * GAME_BOUNDS }, { v with z := v.z * (-(1 / 2)) })
  else (p, v)

/-- Hover bookkeeping: advance the offset, reverse direction past the
amplitude and nudge the altitude by the (possibly reversed) step. -/
noncomputable def hoverStep (y hoverOffset hoverDirection : ℝ) : ℝ × ℝ × ℝ :=
  let hov := hoverOffset + HOVER_SPEED * hoverDirection
  let dir := if |hov| > HOVER_HEIGHT then -hoverDirection else hoverDirection
  (y + HOVER_SPEED * dir, hov, dir)

/-- The player-craft physics of updateUFO, in source order. -/
noncomputable def updateUFO (k : KeysState) (s : UFOState) : UFOState :=
  let v1 := clampSpeed (dampedVelocity k s.vel)
  let p1 := vadd s.pos v1
  let (p2, v2) := floorClamp p1 v1
  let (p3, v3) := boundX p2 v2
  let (p4, v4) := boundZ p3 v3
  let (y5, hov5, dir5) := hoverStep p4.y s.hoverOffset s.hoverDirection
  { pos := { p4 with y := y5 }, vel := v4,
    hoverOffset := hov5, hoverDirection := dir5 }

/-! ### EntityRegistry traversal: jets, missiles, collisions.

The jet and missile registries are plain JavaScript arrays traversed
with `Array.prototype.forEach`, and every removal is a
`splice(index, 1)` at the index of the element currently visited.
Per the ECMAScript semantics of forEach, the element that shifts into
the spliced slot is not visited in that traversal.  `forEachSplice`
captures exactly this: the per-element callback `f` returns the updated
element, the side-effect events it issued, and whether it spliced the
element out; after a splice the immediately following live element is
retained unvisited. -/

inductive GEvent where
  | removeEmitter (id : ℕ)
  | stopSound (id : ℕ)
  | fireMissile
  | explosion
  | damage
deriving DecidableEq, Repr

/-- JavaScript forEach with `splice(index, 1)` of the visited element
inside the callback: visiting `a` yields `f a = (a1, evs, rem)`; if
`rem` is true, `a` leaves the array and its successor is skipped
(kept, unvisited), otherwise `a1` replaces `a`. -/
def forEachSplice (f : α → α × List GEvent × Bool) : List α → List α × List GEvent
  | [] => ([], [])
  | a :: rest =>
    let (a1, evs, rem) := f a
    if rem then
      match rest with
      | [] => ([], evs)
      | b :: rest2 =>
        let (r, e) := forEachSplice f rest2
        (b :: r, evs ++ e)
    else
      let (r, e) := forEachSplice f rest
      (a1 :: r, evs ++ e)

/-- Attacker record: the fields of a jet's `userData` that the update
and collision passes read (collision radius 2.5 is a constant).  The
exhaust emitter and looping engine sound are tracked by id. -/
structure Jet where
  pos : Vec3
  speed : ℝ
  lastFired : ℝ
  fireRate : ℝ
  emitter : ℕ
  sound : ℕ
  soundPlaying : Bool

/-- Projectile record: `userData` of a missile (collision radius 0.5
is a constant).  `dir` is the direction normalized at creation. -/
structure Missile where
  pos : Vec3
  dir : Vec3
  speed : ℝ
  lifeTime : ℕ
  emitter : ℕ

/-- The out-of-bounds despawn threshold, 1.5 times the play-area
half-width. -/
noncomputable def OOB_THRESHOLD : ℝ :=
  GAME_BOUNDS * (3 / 2)

/-- The per-jet callback of updateJets: home toward the player
(normalized direction scaled by the jet speed), fire a missile at the
player when the fire interval has elapsed (resetting `lastFired`), and
despawn, stopping the engine sound (when playing) and releasing the
exhaust emitter, once further than the out-of-bounds threshold from the
player.  The yaw/pitch visuals and the exhaust reposition call are
projected away. -/
noncomputable def jetFrame (now : ℝ) (ufo : Vec3) (j : Jet) :
    Jet × List GEvent × Bool :=
  let dir := vnormalize (vsub ufo j.pos)
  let j1 : Jet := { j with pos := vadd j.pos (vsmul j.speed dir) }
  let fire := now - j.lastFired > j.fireRate
  let j2 : Jet := if fire then { j1 with lastFired := now } else j1
  let fireEv : List GEvent := if fire then [GEvent.fireMissile] else []
  if distSq j2.pos ufo > OOB_THRESHOLD ^ 2 then
    (j2,
     fireEv
       ++ (if j.soundPlaying then [GEvent.stopSound j.sound] else [])
       ++ [GEvent.removeEmitter j.emitter],
     true)
  else
    (j2, fireEv, false)

/-- The traversal of existing jets in updateJets.  (The spawn check at
the head of updateJets belongs to the SpawnScheduler and is modeled by
`abductionIntervalUpdate` / `intervalAfterAbductions`.) -/
noncomputable def updateJets (now : ℝ) (ufo : Vec3) (jets : List Jet) :
    List Jet × List GEvent :=
  forEachSplice (jetFrame now ufo) jets

/-- The per-missile callback of updateMissiles: ballistic travel along
the fixed direction, one more frame of age, and removal (releasing the
exhaust emitter) once out of bounds or older than 500 frames. -/
noncomputable def missileFrame (ufo : Vec3) (m : Missile) :
    Missile × List GEvent × Bool :=
  let m1 : Missile :=
    { m with pos := vadd m.pos (vsmul m.speed m.dir), lifeTime := m.lifeTime + 1 }
  if distSq m1.pos ufo > OOB_THRESHOLD ^ 2 ∨ m1.lifeTime > 500 then
    (m1, [GEvent.removeEmitter m.emitter], true)
  else
    (m1, [], false)

/-- The traversal of updateMissiles. -/
noncomputable def updateMissiles (ufo : Vec3) (missiles : List Missile) :
    List Missile × List GEvent :=
  forEachSplice (missileFrame ufo) missiles

/-- Lifecycle of a single missile across frames: `none` once the
missile has been removed. -/
noncomputable def missileStep (ufo : Vec3) (m : Missile) : Option Missile :=
  if (missileFrame ufo m).2.2 then none else some (missileFrame ufo m).1

/-- Iterated single-missile updates against a stationary player. -/
noncomputable def missileIter (ufo : Vec3) : ℕ → Missile → Option Missile
  | 0, m => some m
  | n + 1, m => (missileIter ufo n m).bind (missileStep ufo)

/-- The per-jet callback of the jet half of checkCollisions: within
collision range (player radius 2 plus jet radius 2.5) the jet explodes,
its engine sound is stopped (when playing), its exhaust emitter is
released, it leaves the registry and the player takes damage. -/
noncomputable def collideJetFrame (ufo : Vec3) (j : Jet) :
    Jet × List GEvent × Bool :=
  if distSq j.pos ufo < (2 + 5 / 2) ^ 2 then
    (j,
     [GEvent.explosion]
       ++ (if j.soundPlaying then [GEvent.stopSound j.sound] else [])
       ++ [GEvent.removeEmitter j.emitter, GEvent.damage],
     true)
  else
    (j, [], false)

/-- The per-missile callback of the missile half of checkCollisions
(player radius 2 plus missile radius 0.5). -/
noncomputable def collideMissileFrame (ufo : Vec3) (m : Missile) :
    Missile × List GEvent × Bool :=
  if distSq m.pos ufo < (2 + 1 / 2) ^ 2 then
    (m, [GEvent.explosion, GEvent.removeEmitter m.emitter, GEvent.damage], true)
  else
    (m, [], false)

/-- Replay of the damagePlayer calls issued during a traversal, in
order; collision detection never reads the game state, so threading the
state through the events reproduces the source exactly. -/
def applyDamageEvents (evs : List GEvent) (gs : GameState) : GameState :=
  evs.foldl
    (fun s e => match e with | GEvent.damage => damagePlayer s | _ => s) gs

/-- Result of the collision pass (and of a whole entity frame). -/
structure FrameResult where
  jets : List Jet
  missiles : List Missile
  gs : GameState
  events : List GEvent

/-- checkCollisions: the jets traversal followed by the missiles
traversal, each removal damaging the player. -/
noncomputable def checkCollisions (ufo : Vec3) (jets : List Jet)
    (missiles : List Missile) (gs : GameState) : FrameResult :=
  { jets := (forEachSplice (collideJetFrame ufo) jets).1,
    missiles := (forEachSplice (collideMissileFrame ufo) missiles).1,
    gs := applyDamageEvents
      ((forEachSplice (collideJetFrame ufo) jets).2
        ++ (forEachSplice (collideMissileFrame ufo) missiles).2) gs,
    events := (forEachSplice (collideJetFrame ufo) jets).2
      ++ (forEachSplice (collideMissileFrame ufo) missiles).2 }

/-- One active frame of the entity subsystems in the order of the
animate loop: updateJets, updateMissiles, then checkCollisions. -/
noncomputable def frameStep (now : ℝ) (ufo : Vec3) (jets : List Jet)
    (missiles : List Missile) (gs : GameState) : FrameResult :=
  { jets := (checkCollisions ufo (updateJets now ufo jets).1
      (updateMissiles ufo missiles).1 gs).jets,
    missiles := (checkCollisions ufo (updateJets now ufo jets).1
      (updateMissiles ufo missiles).1 gs).missiles,
    gs := (checkCollisions ufo (updateJets now ufo jets).1
      (updateMissiles ufo missiles).1 gs).gs,
    events := (updateJets now ufo jets).2 ++ (updateMissiles ufo missiles).2
      ++ (checkCollisions ufo (updateJets now ufo jets).1
            (updateMissiles ufo missiles).1 gs).events }

/-! ### Concrete instances used by individual witnesses and
counterexamples. -/

/-- Player position for the two-jet traversal scenario. -/
noncomputable def ufoC3 : Vec3 := ⟨0, 0, 0⟩

/-- First jet of the traversal scenario, out of bounds on the x axis. -/
noncomputable def jetC3a : Jet :=
  { pos := ⟨400, 0, 0⟩, speed := 0, lastFired := 0, fireRate := 3000,
    emitter := 1, sound := 11, soundPlaying := true }

/-- Second jet of the traversal scenario, out of bounds on the z
axis. -/
noncomputable def jetC3b : Jet :=
  { pos := ⟨0, 0, 400⟩, speed := 0, lastFired := 0, fireRate := 3000,
    emitter := 2, sound := 12, soundPlaying := true }

/-- Player position for the simultaneous-hit scenario. -/
noncomputable def ufoC4 : Vec3 := ⟨0, 20, 0⟩

/-- A jet sitting exactly at the player position. -/
noncomputable def jetC4 : Jet :=
  { pos := ⟨0, 20, 0⟩, speed := 0, lastFired := 0, fireRate := 3000,
    emitter := 3, sound := 13, soundPlaying := true }

/-- A missile sitting exactly at the player position. -/
noncomputable def misC4 : Missile :=
  { pos := ⟨0, 20, 0⟩, dir := ⟨0, 0, 1⟩, speed := 0, lifeTime := 0, emitter := 4 }

/-- Game state after the first single-hit frame of the
damage scenario. -/
noncomputable def gs1C4 : GameState :=
  (checkCollisions ufoC4 [jetC4] [] initGameState).gs

/-- Game state after the second single-hit frame. -/
noncomputable def gs2C4 : GameState :=
  (checkCollisions ufoC4 [jetC4] [] gs1C4).gs

/-- Cow at the terrain origin below the player. -/
def cowW2 : Cow :=
  { pos := ⟨0, 0, 0⟩, rotY := 0, isBeingAbducted := false, abductionProgress := 0 }

/-- Stationary player above the cow. -/
def ufoW2 : ℕ → Vec3Q := fun _ => ⟨0, 5, 0⟩

/-- The cow after two beam-active frames. -/
def cowW2res : Cow :=
  { pos := ⟨0, 1 / 100, 0⟩, rotY := 1 / 20,
    isBeingAbducted := true, abductionProgress := 1 / 20 }

/-- One-shot emitter one update away from expiring. -/
def emitterW7 : Emitter :=
  { ages := [29, 30], lifetime := 30, oneShot := true, active := true,
    emissionRate := 1, emissionCounter := 0 }

/-- Stopped one-shot emitter with every particle already expired. -/
def emitterW10 : Emitter :=
  { ages := [30, 30], lifetime := 30, oneShot := true, active := false,
    emissionRate := 1, emissionCounter := 0 }

/-- Player position for the missile-timeout scenario. -/
noncomputable def ufoC8 : Vec3 := ⟨0, 0, 0⟩

/-- Missile fired from the player position straight along z at the
standard missile speed. -/
noncomputable def misC8 : Missile :=
  { pos := ⟨0, 0, 0⟩, dir := ⟨0, 0, 1⟩, speed := MISSILE_SPEED,
    lifeTime := 0, emitter := 7 }

/-- Stationary missile used to instantiate the timeout theorem. -/
noncomputable def misW8 : Missile :=
  { pos := ⟨1, 2, 3⟩, dir := ⟨0, 0, 1⟩, speed := 0, lifeTime := 0, emitter := 8 }

/-- Jet at the player position used to instantiate the
resource-release theorem. -/
noncomputable def jetW9 : Jet :=
  { pos := ⟨0, 20, 0⟩, speed := 0, lastFired := 0, fireRate := 3000,
    emitter := 1, sound := 11, soundPlaying := true }

/-- Closed-form position of a missile that has survived `n` updates:
`n` steps of `speed` along the creation direction. -/
noncomputable def missilePosAt (m : Missile) (n : ℕ) : Vec3 :=
  vadd m.pos (vsmul ((n : ℝ) * m.speed) m.dir)

/-! ### Helper lemmas on the traversal semantics. -/

theorem forEachSplice_nil (f : α → α × List GEvent × Bool) :
    forEachSplice f [] = ([], []) := rfl

theorem forEachSplice_cons_removed_nil (f : α → α × List GEvent × Bool)
    (a a1 : α) (evs : List GEvent) (h : f a = (a1, evs, true)) :
    forEachSplice f [a] = ([], evs) := by
  simp [forEachSplice, h]

theorem forEachSplice_cons_removed (f : α → α × List GEvent × Bool)
    (a a1 b : α) (rest : List α) (evs : List GEvent)
    (h : f a = (a1, evs, true)) :
    forEachSplice f (a :: b :: rest) =
      (b :: (forEachSplice f rest).1, evs ++ (forEachSplice f rest).2) := by
  simp [forEachSplice, h]

theorem forEachSplice_cons_kept (f : α → α × List GEvent × Bool)
    (a a1 : α) (rest : List α) (evs : List GEvent)
    (h : f a = (a1, evs, false)) :
    forEachSplice f (a :: rest) =
      (a1 :: (forEachSplice f rest).1, evs ++ (forEachSplice f rest).2) := by
  simp [forEachSplice, h]

/-! ### Claim theorems. -/

/-- C1: with health starting at 3, three attacker collisions on three
consecutive active frames bring health to exactly 0, no game-end
notification fires on the first two hits, but the third hit fires the
`endGame` terminal notification twice (once from `updateHealth`, once
from damagePlayer's own depletion check), not once as specified. -/
theorem damagePlayer_three_hits_double_endGame :
    (runFrames [1, 1] initGameState).endGameCount = 0 ∧
    (runFrames [1, 1, 1] initGameState).health = 0 ∧
    (runFrames [1, 1, 1] initGameState).endGameCount = 2 := by
  refine ⟨?_, ?_, ?_⟩ <;> decide

/-- C6: after each successful abduction the spawn interval never drops
below `SPAWN_INTERVAL_MIN`, never increases, and never exceeds the
restart value `SPAWN_INTERVAL_BASE`; only a game restart (which resets
to the base) moves it up. -/
theorem spawnInterval_monotone_floored (n : ℕ) :
    SPAWN_INTERVAL_MIN ≤ intervalAfterAbductions n ∧
    intervalAfterAbductions (n + 1) ≤ intervalAfterAbductions n ∧
    intervalAfterAbductions n ≤ SPAWN_INTERVAL_BASE := by
  have hupd : ∀ c : ℚ, SPAWN_INTERVAL_MIN ≤ c →
      SPAWN_INTERVAL_MIN ≤ abductionIntervalUpdate c ∧ abductionIntervalUpdate c ≤ c := by
    intro c hc
    constructor
    · exact le_max_left _ _
    · refine max_le hc ?_
      have hc0 : (0 : ℚ) ≤ c := le_trans (by norm_num [SPAWN_INTERVAL_MIN]) hc
      simp only [SPAWN_RATE_INCREASE]
      nlinarith [hc0]
  have hmain : ∀ m : ℕ, SPAWN_INTERVAL_MIN ≤ intervalAfterAbductions m ∧
      intervalAfterAbductions m ≤ SPAWN_INTERVAL_BASE := by
    intro m
    induction m with
    | zero =>
      constructor <;> norm_num [intervalAfterAbductions, SPAWN_INTERVAL_MIN, SPAWN_INTERVAL_BASE]
    | succ k ih =>
      have hstep : intervalAfterAbductions (k + 1) =
          abductionIntervalUpdate (intervalAfterAbductions k) := by
        simp [intervalAfterAbductions, Function.iterate_succ_apply']
      obtain ⟨h1, h2⟩ := hupd (intervalAfterAbductions k) ih.1
      exact ⟨hstep ▸ h1, hstep ▸ le_trans h2 ih.2⟩
  refine ⟨(hmain n).1, ?_, (hmain n).2⟩
  have hstep : intervalAfterAbductions (n + 1) =
      abductionIntervalUpdate (intervalAfterAbductions n) := by
    simp [intervalAfterAbductions, Function.iterate_succ_apply']
  exact hstep ▸ (hupd (intervalAfterAbductions n) (hmain n).1).2

/-- C7: in any particle-system update, one-shot emitters whose particle
ages respect the profile lifetime keep respecting it (no particle ever
has age beyond the lifetime while its emitter is in the list), and no
active one-shot emitter with every particle expired survives the update
call — it is removed in the same call in which its last particle
expires, hence within the same-or-next call demanded by the spec. -/
theorem oneShot_age_bound_and_removal (l : List Emitter)
    (h : ∀ e ∈ l, e.oneShot = true → ∀ a ∈ e.ages, a ≤ e.lifetime) :
    (∀ e ∈ particleSystemUpdate l, e.oneShot = true → ∀ a ∈ e.ages, a ≤ e.lifetime) ∧
    (∀ e ∈ particleSystemUpdate l, e.active = true → e.oneShot = true →
      ∃ a ∈ e.ages, a < e.lifetime) := by
  constructor
  · intro e1 he1 ho a ha
    rcases List.mem_filterMap.mp he1 with ⟨e, hel, hstep⟩
    unfold updateEmitterStep at hstep
    split_ifs at hstep with hact hdead
    · cases hstep
      simp only [updateParticles, List.mem_map] at ha ho ⊢
      rcases ha with ⟨a0, ha0, rfl⟩
      have hb := h e hel ho a0 ha0
      unfold particleAgeStep
      split_ifs with hlt hre
      · omega
      · simp only [updateParticles] at hre
        rcases hre with ⟨hfalse, _⟩
        rw [ho] at hfalse
        cases hfalse
      · exact hb
    · cases hstep
      exact h e1 hel ho a ha
  · intro e1 he1 hact1 ho1
    rcases List.mem_filterMap.mp he1 with ⟨e, hel, hstep⟩
    unfold updateEmitterStep at hstep
    split_ifs at hstep with hact hdead
    · cases hstep
      rw [Bool.and_eq_true, not_and] at hdead
      have hnd : ¬ allParticlesDead (updateParticles e) = true := hdead ho1
      unfold allParticlesDead at hnd
      rw [List.all_eq_true] at hnd
      push_neg at hnd
      rcases hnd with ⟨a, ha, hlt⟩
      exact ⟨a, ha, Nat.lt_of_not_le (by simpa using hlt)⟩
    · cases hstep
      rw [hact1] at hact
      exact absurd rfl hact

/-- Witness for C7: a one-shot emitter one frame from expiry satisfies
the age hypothesis, and the conclusion holds for the updated system. -/
theorem oneShot_age_bound_and_removal_witness :
    (∀ e ∈ [emitterW7], e.oneShot = true → ∀ a ∈ e.ages, a ≤ e.lifetime) ∧
    (∀ e ∈ particleSystemUpdate [emitterW7], e.active = true → e.oneShot = true →
      ∃ a ∈ e.ages, a < e.lifetime) :=
  ⟨by decide, (oneShot_age_bound_and_removal [emitterW7] (by decide)).2⟩

/-- C10: an emitter whose active flag has been cleared by
`stopEmitter` is never removed by any number of subsequent
`ParticleSystem.update` calls — it survives, unchanged, forever,
because the all-particles-dead removal check runs only for active
emitters; only an explicit `removeEmitter` or `clear` releases its
scene resource. -/
theorem stopped_emitter_never_removed (l : List Emitter) (e : Emitter) (n : ℕ)
    (h1 : e ∈ l) (h2 : e.active = false) :
    e ∈ (fun s => particleSystemUpdate s)^[n] l := by
  induction n generalizing l with
  | zero => simpa using h1
  | succ k ih =>
    rw [Function.iterate_succ_apply]
    exact ih (particleSystemUpdate l)
      (List.mem_filterMap.mpr ⟨e, h1, by simp [updateEmitterStep, h2]⟩)

/-- Witness for C10: a stopped one-shot emitter with every particle
already expired is still present after five update calls. -/
theorem stopped_emitter_never_removed_witness :
    emitterW10.active = false ∧ allParticlesDead emitterW10 = true ∧
    emitterW10 ∈ (fun s => particleSystemUpdate s)^[5] [emitterW10] :=
  ⟨by decide, by decide,
   stopped_emitter_never_removed [emitterW10] emitterW10 5 (by decide) (by decide)⟩

/-- Counterexample to C2 as stated: a cow idle inside the active beam
has abduction progress 0, not `1 * BEAM_STRENGTH`, after the first
beam-active frame — the transition frame only switches the state to
BeingAbducted and resets progress. -/
theorem beam_first_frame_progress_zero :
    cowW2.isBeingAbducted = false ∧ inBeam (ufoW2 0) cowW2 ∧
    (beamIter ufoW2 1 cowW2).map Cow.abductionProgress = some 0 ∧
    ¬ (beamIter ufoW2 1 cowW2).map Cow.abductionProgress = some (1 * BEAM_STRENGTH) := by
  have h1 : beamIter ufoW2 1 cowW2 =
      some { pos := ⟨0, 0, 0⟩, rotY := 0, isBeingAbducted := true,
             abductionProgress := 0 } := by
    norm_num [beamIter, updateTractorBeamCow, inBeam, horizDistSq, cowW2, ufoW2,
      BEAM_RANGE]
  refine ⟨rfl, ?_, ?_, ?_⟩
  · norm_num [inBeam, horizDistSq, cowW2, ufoW2, BEAM_RANGE]
  · rw [h1]
    rfl
  · rw [h1]
    norm_num [BEAM_STRENGTH]

/-- Helper: one beam frame on a cow already in the BeingAbducted state
either completes the abduction or adds exactly `BEAM_STRENGTH` to the
progress and keeps the state. -/
theorem updateTractorBeamCow_abducted_step (ufo : Vec3Q) (c c1 : Cow)
    (h : c.isBeingAbducted = true) (h1 : updateTractorBeamCow ufo c = some c1) :
    c1.abductionProgress = c.abductionProgress + BEAM_STRENGTH ∧
    c1.isBeingAbducted = true := by
  unfold updateTractorBeamCow at h1
  rw [h] at h1
  simp only [Bool.true_eq_false, if_false] at h1
  split_ifs at h1 with hdist
  · cases h1
    exact ⟨rfl, rfl⟩

/-- C2 (amended): starting from the Idle state inside the active beam,
after `k ≥ 1` consecutive beam-active frames a still-present cow is in
the BeingAbducted state with abduction progress exactly
`(k - 1) * BEAM_STRENGTH` — the transition frame contributes no
progress, and each later frame adds `BEAM_STRENGTH` with no resets. -/
theorem beam_progress_after_k_frames (ufoSeq : ℕ → Vec3Q) (c0 : Cow) (k : ℕ)
    (hIdle : c0.isBeingAbducted = false) (hIn : inBeam (ufoSeq 0) c0)
    (hk : 1 ≤ k) (c : Cow) (hc : beamIter ufoSeq k c0 = some c) :
    c.abductionProgress = ((k - 1 : ℕ) : ℚ) * BEAM_STRENGTH ∧
    c.isBeingAbducted = true := by
  obtain ⟨k0, rfl⟩ : ∃ k0, k = k0 + 1 := ⟨k - 1, by omega⟩
  have aux : ∀ (k0 : ℕ) (c : Cow), beamIter ufoSeq (k0 + 1) c0 = some c →
      c.abductionProgress = (k0 : ℚ) * BEAM_STRENGTH ∧ c.isBeingAbducted = true := by
    intro k0
    induction k0 with
    | zero =>
      intro c hc
      simp only [beamIter, Option.some_bind] at hc
      unfold updateTractorBeamCow at hc
      rw [hIdle] at hc
      simp only [if_true, if_pos hIn] at hc
      cases hc
      norm_num
    | succ k1 ih =>
      intro c hc
      rw [show k1 + 1 + 1 = k1 + 1 + 1 from rfl] at hc
      simp only [beamIter] at hc
      rcases Option.bind_eq_some.mp hc with ⟨c1, hc1, hstep⟩
      obtain ⟨hp, hb⟩ := ih c1 hc1
      obtain ⟨hp2, hb2⟩ := updateTractorBeamCow_abducted_step (ufoSeq (k1 + 1)) c1 c hb hstep
      refine ⟨?_, hb2⟩
      rw [hp2, hp]
      push_cast
      ring
  obtain ⟨hp, hb⟩ := aux k0 c hc
  simpa using ⟨hp, hb⟩

/-- Witness for C2 (amended): the concrete cow below the player,
after 2 beam-active frames, has progress `(2 - 1) * BEAM_STRENGTH`. -/
theorem beam_progress_after_k_frames_witness :
    cowW2.isBeingAbducted = false ∧ inBeam (ufoW2 0) cowW2 ∧ 1 ≤ 2 ∧
    beamIter ufoW2 2 cowW2 = some cowW2res ∧
    (cowW2res.abductionProgress = ((2 - 1 : ℕ) : ℚ) * BEAM_STRENGTH ∧
     cowW2res.isBeingAbducted = true) :=
  have hin : inBeam (ufoW2 0) cowW2 := by
    norm_num [inBeam, horizDistSq, cowW2, ufoW2, BEAM_RANGE]
  have hiter : beamIter ufoW2 2 cowW2 = some cowW2res := by
    norm_num [beamIter, updateTractorBeamCow, inBeam, horizDistSq, distSqQ, lerp,
      cowW2, ufoW2, cowW2res, BEAM_RANGE, BEAM_STRENGTH, Cow.mk.injEq, Vec3Q.mk.injEq]
  ⟨rfl, hin, by norm_num, hiter,
   beam_progress_after_k_frames ufoW2 cowW2 2 rfl hin (by norm_num) cowW2res hiter⟩

/-- Helper: damagePlayer always subtracts exactly 1 from health, and
the game stays active only when the remaining health is at least 1. -/
theorem damagePlayer_spec (gs : GameState) :
    (damagePlayer gs).health = gs.health - 1 ∧
    (isGameActive (damagePlayer gs) = true →
      isGameActive gs = true ∧ 1 ≤ (damagePlayer gs).health) := by
  simp only [damagePlayer, updateHealth, endGame, isGameActive]
  split_ifs with h1 h2 <;> simp_all <;> omega

/-- Helper: one animation frame with at most one hit preserves
nonnegative health, and keeps health at least 1 whenever the game is
still active afterwards. -/
theorem animFrameHits_inv (n : ℕ) (hn : n ≤ 1) (gs : GameState)
    (h0 : 0 ≤ gs.health) (h1 : isGameActive gs = true → 1 ≤ gs.health) :
    0 ≤ (animFrameHits n gs).health ∧
    (isGameActive (animFrameHits n gs) = true → 1 ≤ (animFrameHits n gs).health) := by
  interval_cases n
  · unfold animFrameHits
    split_ifs <;> simpa using ⟨h0, h1⟩
  · unfold animFrameHits
    split_ifs with hact
    · simp only [Function.iterate_one]
      have hd := damagePlayer_spec gs
      have hge := h1 hact
      refine ⟨by omega, fun hact2 => (hd.2 hact2).2⟩
    · exact ⟨h0, h1⟩

/-- Helper: the frame invariant carried through a run of frames each
landing at most one hit. -/
theorem runFrames_inv (hits : List ℕ) (h : ∀ n ∈ hits, n ≤ 1) (gs : GameState)
    (h0 : 0 ≤ gs.health) (h1 : isGameActive gs = true → 1 ≤ gs.health) :
    0 ≤ (runFrames hits gs).health ∧
    (isGameActive (runFrames hits gs) = true → 1 ≤ (runFrames hits gs).health) := by
  induction hits generalizing gs with
  | nil => simpa [runFrames] using ⟨h0, h1⟩
  | cons n rest ih =>
    have hstep := animFrameHits_inv n (h n (by simp)) gs h0 h1
    have hrest := ih (fun m hm => h m (by simp [hm])) (animFrameHits n gs)
      hstep.1 hstep.2
    simpa [runFrames, List.foldl_cons] using hrest

/-- C4 (amended): health starts at 3 and each hit decrements it by 1
with no clamp; in every state reachable through frames landing at most
one hit each, health stays nonnegative, because the frame that brings
health to 0 ends the game and inactive frames land no hits.  (The
unamended claim fails when two hits land in the final frame — see the
counterexample.) -/
theorem health_never_negative_single_hits (hits : List ℕ)
    (h : ∀ n ∈ hits, n ≤ 1) (k : ℕ) :
    0 ≤ (runFrames (hits.take k) initGameState).health := by
  refine (runFrames_inv (hits.take k)
    (fun n hn => h n (List.take_subset k hits hn)) initGameState ?_ ?_).1
  · norm_num [initGameState]
  · intro
    norm_num [initGameState]

/-- Witness for C4 (amended): three one-hit frames from full health
leave health at exactly 0, never negative. -/
theorem health_never_negative_witness :
    (∀ n ∈ [1, 1, 1], n ≤ 1) ∧
    0 ≤ (runFrames ([1, 1, 1].take 3) initGameState).health :=
  ⟨by decide, health_never_negative_single_hits [1, 1, 1] (by decide) 3⟩

/-- Helper: evaluation of the collision callback on the jet sitting at
the player position. -/
theorem collideJetFrame_jetC4 :
    collideJetFrame ufoC4 jetC4 =
      (jetC4, [GEvent.explosion, GEvent.stopSound 13, GEvent.removeEmitter 3,
               GEvent.damage], true) := by
  have hd : distSq jetC4.pos ufoC4 < (2 + 5 / 2) ^ 2 := by
    norm_num [distSq, normSq, vsub, jetC4, ufoC4]
  unfold collideJetFrame
  rw [if_pos hd]
  simp [jetC4]

/-- Helper: evaluation of the collision callback on the missile
sitting at the player position. -/
theorem collideMissileFrame_misC4 :
    collideMissileFrame ufoC4 misC4 =
      (misC4, [GEvent.explosion, GEvent.removeEmitter 4, GEvent.damage], true) := by
  have hd : distSq misC4.pos ufoC4 < (2 + 1 / 2) ^ 2 := by
    norm_num [distSq, normSq, vsub, misC4, ufoC4]
  unfold collideMissileFrame
  rw [if_pos hd]
  simp [misC4]

/-- Helper: a collision frame with the single colliding jet and no
missiles applies exactly one damagePlayer. -/
theorem checkCollisions_single_jet (gs : GameState) :
    checkCollisions ufoC4 [jetC4] [] gs =
      { jets := [], missiles := [], gs := damagePlayer gs,
        events := [GEvent.explosion, GEvent.stopSound 13, GEvent.removeEmitter 3,
                   GEvent.damage] } := by
  unfold checkCollisions
  rw [forEachSplice_cons_removed_nil _ _ _ _ collideJetFrame_jetC4,
    forEachSplice_nil]
  simp [applyDamageEvents]

/-- Counterexample to C4 as stated: health is not floored at 0.  Two
single-hit collision frames bring health from 3 to 1 with the game
still active; a third frame in which a jet and a missile hit
simultaneously drives health to -1. -/
theorem health_negative_double_hit :
    initGameState.health = 3 ∧
    isGameActive gs1C4 = true ∧ isGameActive gs2C4 = true ∧
    (checkCollisions ufoC4 [jetC4] [misC4] gs2C4).gs.health = -1 := by
  have hgs1 : gs1C4 = damagePlayer initGameState := by
    unfold gs1C4
    rw [checkCollisions_single_jet]
  have hgs2 : gs2C4 = damagePlayer (damagePlayer initGameState) := by
    unfold gs2C4
    rw [checkCollisions_single_jet, hgs1]
  have hfull : (checkCollisions ufoC4 [jetC4] [misC4] gs2C4).gs =
      damagePlayer (damagePlayer gs2C4) := by
    unfold checkCollisions
    rw [forEachSplice_cons_removed_nil _ _ _ _ collideJetFrame_jetC4,
      forEachSplice_cons_removed_nil _ _ _ _ collideMissileFrame_misC4]
    simp [applyDamageEvents]
  refine ⟨rfl, ?_, ?_, ?_⟩
  · rw [hgs1]
    decide
  · rw [hgs2]
    decide
  · rw [hfull, hgs2]
    decide

/-- Helper: the squared norm is nonnegative. -/
theorem normSq_nonneg (v : Vec3) : 0 ≤ normSq v := by
  unfold normSq
  positivity

/-- Helper: the squared norm is the square of the norm. -/
theorem sq_vnorm (v : Vec3) : vnorm v ^ 2 = normSq v :=
  Real.sq_sqrt (normSq_nonneg v)

/-- Helper: the norm is nonnegative. -/
theorem vnorm_nonneg (v : Vec3) : 0 ≤ vnorm v :=
  Real.sqrt_nonneg _

/-- Helper: squared norm of a scalar multiple. -/
theorem normSq_vsmul (c : ℝ) (v : Vec3) : normSq (vsmul c v) = c ^ 2 * normSq v := by
  unfold normSq vsmul
  ring

/-- Helper: after the clamp step the squared speed is at most the
squared speed limit. -/
theorem normSq_clampSpeed (v : Vec3) : normSq (clampSpeed v) ≤ MAX_SPEED ^ 2 := by
  unfold clampSpeed
  split_ifs with h
  · rw [normSq_vsmul]
    have hpos : 0 < vnorm v := lt_trans (by norm_num [MAX_SPEED]) h
    have hq := sq_vnorm v
    have hnz : normSq v ≠ 0 := by nlinarith
    have heq : (MAX_SPEED / vnorm v) ^ 2 * normSq v = MAX_SPEED ^ 2 := by
      rw [div_pow, hq]
      exact div_mul_cancel₀ _ hnz
    exact le_of_eq heq
  · push_neg at h
    have hq := sq_vnorm v
    nlinarith [vnorm_nonneg v]

/-- Helper: the floor clamp never increases the squared speed. -/
theorem floorClamp_normSq (p v : Vec3) : normSq (floorClamp p v).2 ≤ normSq v := by
  unfold floorClamp
  split_ifs
  · simp only [normSq]
    nlinarith [sq_nonneg v.y]
  · exact le_refl _

/-- Helper: the x-boundary bounce never increases the squared speed. -/
theorem boundX_normSq (p v : Vec3) : normSq (boundX p v).2 ≤ normSq v := by
  unfold boundX
  split_ifs
  · simp only [normSq]
    nlinarith [sq_nonneg v.x]
  · exact le_refl _

/-- Helper: the z-boundary bounce never increases the squared speed. -/
theorem boundZ_normSq (p v : Vec3) : normSq (boundZ p v).2 ≤ normSq v := by
  unfold boundZ
  split_ifs
  · simp only [normSq]
    nlinarith [sq_nonneg v.z]
  · exact le_refl _

/-- C5: for every combination of held keys and every starting state,
after one updateUFO pass the player velocity satisfies
`|velocity| ≤ MAX_SPEED`: the clamp enforces the bound and the floor
clamp and boundary bounces only shrink components. -/
theorem updateUFO_speed_clamped (k : KeysState) (s : UFOState) :
    vnorm (updateUFO k s).vel ≤ MAX_SPEED := by
  have hvel : (updateUFO k s).vel =
      (boundZ
        (boundX (floorClamp (vadd s.pos (clampSpeed (dampedVelocity k s.vel)))
            (clampSpeed (dampedVelocity k s.vel))).1
          (floorClamp (vadd s.pos (clampSpeed (dampedVelocity k s.vel)))
            (clampSpeed (dampedVelocity k s.vel))).2).1
        (boundX (floorClamp (vadd s.pos (clampSpeed (dampedVelocity k s.vel)))
            (clampSpeed (dampedVelocity k s.vel))).1
          (floorClamp (vadd s.pos (clampSpeed (dampedVelocity k s.vel)))
            (clampSpeed (dampedVelocity k s.vel))).2).2).2 := by
    simp only [updateUFO]
  have h1 : normSq (updateUFO k s).vel ≤ MAX_SPEED ^ 2 := by
    rw [hvel]
    exact le_trans (boundZ_normSq _ _)
      (le_trans (boundX_normSq _ _)
        (le_trans (floorClamp_normSq _ _) (normSq_clampSpeed _)))
  have h2 : vnorm (updateUFO k s).vel ≤ Real.sqrt (MAX_SPEED ^ 2) :=
    Real.sqrt_le_sqrt h1
  rwa [Real.sqrt_sq (by norm_num [MAX_SPEED] : (0 : ℝ) ≤ MAX_SPEED)] at h2

/-- Helper: evaluation of the updateJets callback on the first
out-of-bounds jet: it is moved (by zero, its speed is 0), does not
fire, and is despawned with its sound stopped and emitter released. -/
theorem jetFrame_C3a :
    jetFrame 0 ufoC3 jetC3a =
      (jetC3a, [GEvent.stopSound 11, GEvent.removeEmitter 1], true) := by
  unfold jetFrame
  norm_num [jetC3a, ufoC3, vadd, vsmul, distSq, normSq, vsub, OOB_THRESHOLD,
    GAME_BOUNDS, Jet.mk.injEq]

/-- C3 evaluated at a failing input: with two jets both beyond the
despawn threshold, the forEach + splice traversal of updateJets removes
the first jet and then skips the second entirely — the second jet is
neither visited nor removed in this frame (it satisfies the removal
condition yet stays in the registry), contradicting the required
visit-every-surviving-entity traversal. -/
theorem updateJets_splice_skips_neighbor :
    updateJets 0 ufoC3 [jetC3a, jetC3b] =
      ([jetC3b], [GEvent.stopSound 11, GEvent.removeEmitter 1]) ∧
    distSq jetC3b.pos ufoC3 > OOB_THRESHOLD ^ 2 := by
  constructor
  · unfold updateJets
    rw [forEachSplice_cons_removed _ _ _ _ _ _ jetFrame_C3a]
    simp [forEachSplice_nil]
  · norm_num [distSq, normSq, vsub, jetC3b, ufoC3, OOB_THRESHOLD, GAME_BOUNDS]

/-- Helper: one missile lifecycle step in closed form — the missile
moves and ages, and disappears exactly when the moved position is
beyond the despawn threshold or the new age exceeds 500. -/
theorem missileStep_eq (ufo : Vec3) (m : Missile) :
    missileStep ufo m =
      if distSq (vadd m.pos (vsmul m.speed m.dir)) ufo > OOB_THRESHOLD ^ 2 ∨
          m.lifeTime + 1 > 500 then none
      else some { m with pos := vadd m.pos (vsmul m.speed m.dir),
                         lifeTime := m.lifeTime + 1 } := by
  unfold missileStep missileFrame
  by_cases h : distSq (vadd m.pos (vsmul m.speed m.dir)) ufo > OOB_THRESHOLD ^ 2 ∨
      m.lifeTime + 1 > 500
  · rw [if_pos h, if_pos h]
    simp
  · rw [if_neg h, if_neg h]
    simp

/-- Helper: closed form of a surviving missile's trajectory — as long
as every post-move position through frame `n ≤ 500` stays inside the
despawn threshold, the missile is alive after `n` updates with age `n`
and position `n` steps along its direction. -/
theorem missileIter_formula (ufo : Vec3) (m0 : Missile) (h0 : m0.lifeTime = 0) :
    ∀ n : ℕ, n ≤ 500 →
    (∀ k : ℕ, 1 ≤ k → k ≤ n → distSq (missilePosAt m0 k) ufo ≤ OOB_THRESHOLD ^ 2) →
    missileIter ufo n m0 =
      some { m0 with pos := missilePosAt m0 n, lifeTime := n } := by
  obtain ⟨p, d, sp, lt, em⟩ := m0
  simp only at h0
  subst h0
  intro n
  induction n with
  | zero =>
    intro hn hin
    simp [missileIter, missilePosAt, vadd, vsmul]
  | succ k ihk =>
    intro hn hin
    have hiter := ihk (by omega) (fun j h1 h2 => hin j h1 (by omega))
    rw [missileIter, hiter, Option.some_bind, missileStep_eq]
    dsimp only
    have hpos : vadd (missilePosAt ⟨p, d, sp, 0, em⟩ k) (vsmul sp d) =
        missilePosAt ⟨p, d, sp, 0, em⟩ (k + 1) := by
      simp only [missilePosAt, vadd, vsmul, Vec3.mk.injEq]
      push_cast
      refine ⟨by ring, by ring, by ring⟩
    rw [if_neg]
    · rw [hpos]
    · push_neg
      constructor
      · rw [hpos]
        simpa using hin (k + 1) (by omega) (le_refl _)
      · omega

/-- Counterexample to C8 as stated: a missile created with age 0 at
the player position, heading away at speed 0.5, is still alive after
500 updates (it is removed only on update 501, when its age first
exceeds 500), and it is still inside the despawn threshold at that
point — so it is not "removed by frame 500". -/
theorem missile_alive_at_frame_500 :
    missileIter ufoC8 500 misC8 =
      some { pos := ⟨0, 0, 250⟩, dir := ⟨0, 0, 1⟩, speed := MISSILE_SPEED,
             lifeTime := 500, emitter := 7 } ∧
    distSq (⟨0, 0, 250⟩ : Vec3) ufoC8 ≤ OOB_THRESHOLD ^ 2 := by
  have hin : ∀ k : ℕ, 1 ≤ k → k ≤ 500 →
      distSq (missilePosAt misC8 k) ufoC8 ≤ OOB_THRESHOLD ^ 2 := by
    intro k h1 h2
    have hk : (k : ℝ) ≤ 500 := by exact_mod_cast h2
    have hk0 : (0 : ℝ) ≤ (k : ℝ) := by positivity
    simp only [missilePosAt, misC8, ufoC8, vadd, vsmul, distSq, normSq, vsub,
      OOB_THRESHOLD, GAME_BOUNDS, MISSILE_SPEED]
    nlinarith
  have h := missileIter_formula ufoC8 misC8 rfl 500 (le_refl _) hin
  constructor
  · rw [h]
    simp only [Option.some.injEq, Missile.mk.injEq, misC8, missilePosAt, vadd,
      vsmul, Vec3.mk.injEq, MISSILE_SPEED]
    norm_num
  · norm_num [distSq, normSq, vsub, ufoC8, OOB_THRESHOLD, GAME_BOUNDS]

/-- C8 (amended): a never-colliding projectile that stays inside the
despawn threshold is alive with age `n` after each of its first 500
updates, and is removed on update 501 — the first update on which its
age exceeds the 500-frame limit; it is never removed earlier. -/
theorem missile_timeout_at_501 (ufo : Vec3) (m0 : Missile) (h0 : m0.lifeTime = 0)
    (hin : ∀ k : ℕ, 1 ≤ k → k ≤ 500 →
      distSq (missilePosAt m0 k) ufo ≤ OOB_THRESHOLD ^ 2) :
    (∀ n : ℕ, n ≤ 500 → missileIter ufo n m0 =
       some { m0 with pos := missilePosAt m0 n, lifeTime := n }) ∧
    missileIter ufo 501 m0 = none := by
  constructor
  · intro n hn
    exact missileIter_formula ufo m0 h0 n hn (fun j h1 h2 => hin j h1 (by omega))
  · rw [show (501 : ℕ) = 500 + 1 from rfl, missileIter,
      missileIter_formula ufo m0 h0 500 (le_refl _) hin, Option.some_bind,
      missileStep_eq]
    rw [if_pos]
    right
    dsimp only
    omega

/-- Witness for C8 (amended): a stationary missile far from nothing in
particular satisfies the in-bounds hypothesis and is removed exactly on
update 501. -/
theorem missile_timeout_witness :
    misW8.lifeTime = 0 ∧ missileIter ⟨0, 0, 0⟩ 501 misW8 = none :=
  ⟨rfl,
   (missile_timeout_at_501 ⟨0, 0, 0⟩ misW8 rfl (by
      intro k h1 h2
      norm_num [missilePosAt, misW8, vadd, vsmul, distSq, normSq, vsub,
        OOB_THRESHOLD, GAME_BOUNDS])).2⟩

/-- Helper: conservation of tagged removal events along a forEach +
splice traversal.  If the callback preserves a tag `g` of the element
it visits, and issues the event `E (g a)` exactly once when it splices
`a` out and never otherwise, then for every tag value `i` the events of
the whole traversal plus the survivors carrying `i` account exactly for
the input elements carrying `i`. -/
theorem forEachSplice_count (f : α → α × List GEvent × Bool) (g : α → ℕ)
    (E : ℕ → GEvent) (i : ℕ) :
    ∀ l : List α,
    (∀ a ∈ l, g (f a).1 = g a) →
    (∀ a ∈ l, ((f a).2.1.count (E i)) = if (f a).2.2 = true ∧ g a = i then 1 else 0) →
    ((forEachSplice f l).2.count (E i)) + ((forEachSplice f l).1.map g).count i
      = (l.map g).count i := by
  intro l
  induction l using forEachSplice.induct (f := f) with
  | case1 =>
    intro hg hc
    simp [forEachSplice_nil]
  | case2 b a1 evs hfb =>
    intro hg hc
    rw [forEachSplice_cons_removed_nil f b a1 evs hfb]
    have hb := hc b (by simp)
    rw [hfb] at hb
    simp only [true_and] at hb
    simp [hb, List.count_cons]
  | case3 b a1 evs b1 rest2 r e hrec hfb ih =>
    intro hg hc
    rw [forEachSplice_cons_removed f b a1 b1 rest2 evs hfb]
    have ihh := ih (fun a ha => hg a (by simp [ha])) (fun a ha => hc a (by simp [ha]))
    have hb := hc b (by simp)
    rw [hfb] at hb
    simp only [true_and] at hb
    simp only [List.map_cons, List.count_cons, List.count_append, beq_iff_eq, hb]
    omega
  | case4 b rest2 a1 evs rem hfb hrem r e hrec ih =>
    intro hg hc
    have hfb2 : f b = (a1, evs, false) := by
      rw [hfb]
      simp only [Bool.not_eq_true] at hrem
      rw [hrem]
    rw [forEachSplice_cons_kept f b a1 rest2 evs hfb2]
    have ihh := ih (fun a ha => hg a (by simp [ha])) (fun a ha => hc a (by simp [ha]))
    have hb := hc b (by simp)
    rw [hfb2] at hb
    simp only [Bool.false_eq_true, false_and, if_false] at hb
    have hgb := hg b (by simp)
    rw [hfb2] at hgb
    simp only [List.map_cons, List.count_cons, List.count_append, beq_iff_eq, hb, hgb]
    omega

/-- Helper: a traversal whose callback never issues a given event
issues it nowhere. -/
theorem forEachSplice_count_zero (f : α → α × List GEvent × Bool) (ev : GEvent) :
    ∀ l : List α, (∀ a ∈ l, (f a).2.1.count ev = 0) →
    (forEachSplice f l).2.count ev = 0 := by
  intro l
  induction l using forEachSplice.induct (f := f) with
  | case1 =>
    intro hc
    simp [forEachSplice_nil]
  | case2 b a1 evs hfb =>
    intro hc
    rw [forEachSplice_cons_removed_nil f b a1 evs hfb]
    have hb := hc b (by simp)
    rw [hfb] at hb
    exact hb
  | case3 b a1 evs b1 rest2 r e hrec hfb ih =>
    intro hc
    rw [forEachSplice_cons_removed f b a1 b1 rest2 evs hfb]
    have hb := hc b (by simp)
    rw [hfb] at hb
    simp [List.count_append, hb, ih (fun a ha => hc a (by simp [ha]))]
  | case4 b rest2 a1 evs rem hfb hrem r e hrec ih =>
    intro hc
    have hfb2 : f b = (a1, evs, false) := by
      rw [hfb]
      simp only [Bool.not_eq_true] at hrem
      rw [hrem]
    rw [forEachSplice_cons_kept f b a1 rest2 evs hfb2]
    have hb := hc b (by simp)
    rw [hfb2] at hb
    simp [List.count_append, hb, ih (fun a ha => hc a (by simp [ha]))]

/-- Helper: every survivor of a forEach + splice traversal is either an
untouched input element (a skipped neighbor) or the callback image of
an input element. -/
theorem forEachSplice_mem (f : α → α × List GEvent × Bool) :
    ∀ (l : List α) (b : α), b ∈ (forEachSplice f l).1 →
    b ∈ l ∨ ∃ a ∈ l, b = (f a).1 := by
  intro l
  induction l using forEachSplice.induct (f := f) with
  | case1 =>
    intro b hb
    simp [forEachSplice_nil] at hb
  | case2 b0 a1 evs hfb =>
    intro b hb
    rw [forEachSplice_cons_removed_nil f b0 a1 evs hfb] at hb
    simp at hb
  | case3 b0 a1 evs b1 rest2 r e hrec hfb ih =>
    intro b hb
    rw [forEachSplice_cons_removed f b0 a1 b1 rest2 evs hfb] at hb
    rcases List.mem_cons.mp hb with hb1 | hb2
    · left
      simp [hb1]
    · rcases ih b hb2 with h | ⟨a, ha, heq⟩
      · left
        simp [h]
      · right
        exact ⟨a, by simp [ha], heq⟩
  | case4 b0 rest2 a1 evs rem hfb hrem r e hrec ih =>
    intro b hb
    have hfb2 : f b0 = (a1, evs, false) := by
      rw [hfb]
      simp only [Bool.not_eq_true] at hrem
      rw [hrem]
    rw [forEachSplice_cons_kept f b0 a1 rest2 evs hfb2] at hb
    rcases List.mem_cons.mp hb with hb1 | hb2
    · right
      refine ⟨b0, by simp, ?_⟩
      rw [hfb2, hb1]
    · rcases ih b hb2 with h | ⟨a, ha, heq⟩
      · left
        simp [h]
      · right
        exact ⟨a, by simp [ha], heq⟩

/-- Helper: the updateJets callback never changes a jet's emitter
id. -/
theorem jetFrame_emitter (now : ℝ) (ufo : Vec3) (j : Jet) :
    (jetFrame now ufo j).1.emitter = j.emitter := by
  simp only [jetFrame]
  split_ifs <;> rfl

/-- Helper: the updateJets callback never changes a jet's sound id. -/
theorem jetFrame_sound (now : ℝ) (ufo : Vec3) (j : Jet) :
    (jetFrame now ufo j).1.sound = j.sound := by
  simp only [jetFrame]
  split_ifs <;> rfl

/-- Helper: the updateJets callback never changes a jet's
sound-playing flag. -/
theorem jetFrame_soundPlaying (now : ℝ) (ufo : Vec3) (j : Jet) :
    (jetFrame now ufo j).1.soundPlaying = j.soundPlaying := by
  simp only [jetFrame]
  split_ifs <;> rfl

/-- Helper: the updateJets callback issues the emitter-release event
for exactly the jet it despawns, once, and no release otherwise. -/
theorem jetFrame_count_removeEmitter (now : ℝ) (ufo : Vec3) (j : Jet) (i : ℕ) :
    ((jetFrame now ufo j).2.1.count (GEvent.removeEmitter i)) =
      if (jetFrame now ufo j).2.2 = true ∧ j.emitter = i then 1 else 0 := by
  simp only [jetFrame]
  split_ifs <;>
    simp_all [List.count_append, List.count_cons, List.count_nil]

/-- Helper: the updateJets callback issues the sound-stop event for
exactly the playing-sound jet it despawns, once. -/
theorem jetFrame_count_stopSound (now : ℝ) (ufo : Vec3) (j : Jet)
    (hplay : j.soundPlaying = true) (s : ℕ) :
    ((jetFrame now ufo j).2.1.count (GEvent.stopSound s)) =
      if (jetFrame now ufo j).2.2 = true ∧ j.sound = s then 1 else 0 := by
  simp only [jetFrame]
  split_ifs <;>
    simp_all [List.count_append, List.count_cons, List.count_nil]

/-- Helper: the jet-collision callback returns the jet unchanged. -/
theorem collideJetFrame_fst (ufo : Vec3) (j : Jet) :
    (collideJetFrame ufo j).1 = j := by
  simp only [collideJetFrame]
  split_ifs <;> rfl

/-- Helper: emitter-release events of the jet-collision callback. -/
theorem collideJetFrame_count_removeEmitter (ufo : Vec3) (j : Jet) (i : ℕ) :
    ((collideJetFrame ufo j).2.1.count (GEvent.removeEmitter i)) =
      if (collideJetFrame ufo j).2.2 = true ∧ j.emitter = i then 1 else 0 := by
  simp only [collideJetFrame]
  split_ifs <;>
    simp_all [List.count_append, List.count_cons, List.count_nil]

/-- Helper: sound-stop events of the jet-collision callback. -/
theorem collideJetFrame_count_stopSound (ufo : Vec3) (j : Jet)
    (hplay : j.soundPlaying = true) (s : ℕ) :
    ((collideJetFrame ufo j).2.1.count (GEvent.stopSound s)) =
      if (collideJetFrame ufo j).2.2 = true ∧ j.sound = s then 1 else 0 := by
  simp only [collideJetFrame]
  split_ifs <;>
    simp_all [List.count_append, List.count_cons, List.count_nil]

/-- Helper: the updateMissiles callback never changes a missile's
emitter id. -/
theorem missileFrame_emitter (ufo : Vec3) (m : Missile) :
    (missileFrame ufo m).1.emitter = m.emitter := by
  simp only [missileFrame]
  split_ifs <;> rfl

/-- Helper: emitter-release events of the updateMissiles callback. -/
theorem missileFrame_count_removeEmitter (ufo : Vec3) (m : Missile) (i : ℕ) :
    ((missileFrame ufo m).2.1.count (GEvent.removeEmitter i)) =
      if (missileFrame ufo m).2.2 = true ∧ m.emitter = i then 1 else 0 := by
  simp only [missileFrame]
  split_ifs <;>
    simp_all [List.count_cons, List.count_nil]

/-- Helper: the updateMissiles callback issues no sound-stop events. -/
theorem missileFrame_count_stopSound (ufo : Vec3) (m : Missile) (s : ℕ) :
    ((missileFrame ufo m).2.1.count (GEvent.stopSound s)) = 0 := by
  simp only [missileFrame]
  split_ifs <;>
    simp [List.count_cons, List.count_nil]

/-- Helper: the missile-collision callback returns the missile
unchanged. -/
theorem collideMissileFrame_fst (ufo : Vec3) (m : Missile) :
    (collideMissileFrame ufo m).1 = m := by
  simp only [collideMissileFrame]
  split_ifs <;> rfl

/-- Helper: emitter-release events of the missile-collision
callback. -/
theorem collideMissileFrame_count_removeEmitter (ufo : Vec3) (m : Missile) (i : ℕ) :
    ((collideMissileFrame ufo m).2.1.count (GEvent.removeEmitter i)) =
      if (collideMissileFrame ufo m).2.2 = true ∧ m.emitter = i then 1 else 0 := by
  simp only [collideMissileFrame]
  split_ifs <;>
    simp_all [List.count_cons, List.count_nil]

/-- Helper: the missile-collision callback issues no sound-stop
events. -/
theorem collideMissileFrame_count_stopSound (ufo : Vec3) (m : Missile) (s : ℕ) :
    ((collideMissileFrame ufo m).2.1.count (GEvent.stopSound s)) = 0 := by
  simp only [collideMissileFrame]
  split_ifs <;>
    simp [List.count_cons, List.count_nil]

/-- Helper: every jet surviving the full frame carries the emitter,
sound and playing flag of some input jet. -/
theorem frameStep_jets_key (now : ℝ) (ufo : Vec3) (jets : List Jet) (b : Jet)
    (hb : b ∈ (forEachSplice (collideJetFrame ufo)
      (forEachSplice (jetFrame now ufo) jets).1).1) :
    ∃ a ∈ jets, b.emitter = a.emitter ∧ b.sound = a.sound ∧
      b.soundPlaying = a.soundPlaying := by
  have hb1 : b ∈ (forEachSplice (jetFrame now ufo) jets).1 := by
    rcases forEachSplice_mem (collideJetFrame ufo) _ b hb with h | ⟨a, ha, rfl⟩
    · exact h
    · rw [collideJetFrame_fst]
      exact ha
  rcases forEachSplice_mem (jetFrame now ufo) jets b hb1 with h | ⟨a, ha, rfl⟩
  · exact ⟨b, h, rfl, rfl, rfl⟩
  · exact ⟨a, ha, jetFrame_emitter now ufo a, jetFrame_sound now ufo a,
      jetFrame_soundPlaying now ufo a⟩

/-- Helper: resource accounting for one attacker across a full frame:
exactly one emitter release and one sound stop when it leaves the
registry, no release while it stays. -/
theorem frameStep_jet_release (now : ℝ) (ufo : Vec3)
    (jets : List Jet) (missiles : List Missile) (gs : GameState)
    (hnodup : ((jets.map Jet.emitter) ++ (missiles.map Missile.emitter)).Nodup)
    (hsnodup : (jets.map Jet.sound).Nodup)
    (hplay : ∀ j ∈ jets, j.soundPlaying = true)
    (j : Jet) (hj : j ∈ jets) :
    (j.emitter ∉ ((frameStep now ufo jets missiles gs).jets.map Jet.emitter) →
      (frameStep now ufo jets missiles gs).events.count
        (GEvent.removeEmitter j.emitter) = 1 ∧
      (frameStep now ufo jets missiles gs).events.count
        (GEvent.stopSound j.sound) = 1) ∧
    (j.emitter ∈ ((frameStep now ufo jets missiles gs).jets.map Jet.emitter) →
      (frameStep now ufo jets missiles gs).events.count
        (GEvent.removeEmitter j.emitter) = 0) := by
  have hjets : (frameStep now ufo jets missiles gs).jets =
      (forEachSplice (collideJetFrame ufo)
        (forEachSplice (jetFrame now ufo) jets).1).1 := rfl
  have hev : (frameStep now ufo jets missiles gs).events =
      (forEachSplice (jetFrame now ufo) jets).2
        ++ (forEachSplice (missileFrame ufo) missiles).2
        ++ ((forEachSplice (collideJetFrame ufo)
              (forEachSplice (jetFrame now ufo) jets).1).2
            ++ (forEachSplice (collideMissileFrame ufo)
                  (forEachSplice (missileFrame ufo) missiles).1).2) := rfl
  obtain ⟨hnj, hnm, hdisj⟩ := List.nodup_append.mp hnodup
  have hjm : j.emitter ∈ jets.map Jet.emitter := List.mem_map_of_mem _ hj
  -- removeEmitter accounting through the four passes
  have hA := forEachSplice_count (jetFrame now ufo) Jet.emitter
    GEvent.removeEmitter j.emitter jets
    (fun a _ => jetFrame_emitter now ufo a)
    (fun a _ => jetFrame_count_removeEmitter now ufo a j.emitter)
  have hB := forEachSplice_count (collideJetFrame ufo) Jet.emitter
    GEvent.removeEmitter j.emitter (forEachSplice (jetFrame now ufo) jets).1
    (fun a _ => by rw [collideJetFrame_fst])
    (fun a _ => collideJetFrame_count_removeEmitter ufo a j.emitter)
  have hC := forEachSplice_count (missileFrame ufo) Missile.emitter
    GEvent.removeEmitter j.emitter missiles
    (fun a _ => missileFrame_emitter ufo a)
    (fun a _ => missileFrame_count_removeEmitter ufo a j.emitter)
  have hD := forEachSplice_count (collideMissileFrame ufo) Missile.emitter
    GEvent.removeEmitter j.emitter (forEachSplice (missileFrame ufo) missiles).1
    (fun a _ => by rw [collideMissileFrame_fst])
    (fun a _ => collideMissileFrame_count_removeEmitter ufo a j.emitter)
  have hin1 : (jets.map Jet.emitter).count j.emitter = 1 :=
    List.count_eq_one_of_mem hnj hjm
  have hmis0 : (missiles.map Missile.emitter).count j.emitter = 0 :=
    List.count_eq_zero.mpr (hdisj hjm)
  -- sound accounting
  have hplay1 : ∀ a ∈ (forEachSplice (jetFrame now ufo) jets).1,
      a.soundPlaying = true := by
    intro a ha
    rcases forEachSplice_mem (jetFrame now ufo) jets a ha with h | ⟨a0, ha0, rfl⟩
    · exact hplay a h
    · rw [jetFrame_soundPlaying]
      exact hplay a0 ha0
  have hAs := forEachSplice_count (jetFrame now ufo) Jet.sound
    GEvent.stopSound j.sound jets
    (fun a _ => jetFrame_sound now ufo a)
    (fun a ha => jetFrame_count_stopSound now ufo a (hplay a ha) j.sound)
  have hBs := forEachSplice_count (collideJetFrame ufo) Jet.sound
    GEvent.stopSound j.sound (forEachSplice (jetFrame now ufo) jets).1
    (fun a _ => by rw [collideJetFrame_fst])
    (fun a ha => collideJetFrame_count_stopSound ufo a (hplay1 a ha) j.sound)
  have hCs := forEachSplice_count_zero (missileFrame ufo) (GEvent.stopSound j.sound)
    missiles (fun a _ => missileFrame_count_stopSound ufo a j.sound)
  have hDs := forEachSplice_count_zero (collideMissileFrame ufo)
    (GEvent.stopSound j.sound) (forEachSplice (missileFrame ufo) missiles).1
    (fun a _ => collideMissileFrame_count_stopSound ufo a j.sound)
  have hsin : (jets.map Jet.sound).count j.sound = 1 :=
    List.count_eq_one_of_mem hsnodup (List.mem_map_of_mem _ hj)
  constructor
  · intro hnot
    rw [hjets] at hnot
    have hj2c : ((forEachSplice (collideJetFrame ufo)
        (forEachSplice (jetFrame now ufo) jets).1).1.map Jet.emitter).count
          j.emitter = 0 :=
      List.count_eq_zero.mpr hnot
    have hs2c : ((forEachSplice (collideJetFrame ufo)
        (forEachSplice (jetFrame now ufo) jets).1).1.map Jet.sound).count
          j.sound = 0 := by
      rw [List.count_eq_zero]
      intro hmem
      rcases List.mem_map.mp hmem with ⟨j2, hj2, hjs⟩
      rcases frameStep_jets_key now ufo jets j2 hj2 with ⟨a, ha, hae, has, _⟩
      have haj : a = j :=
        List.inj_on_of_nodup_map hsnodup ha hj (by rw [← has, hjs])
      apply hnot
      rw [List.mem_map]
      exact ⟨j2, hj2, by rw [hae, haj]⟩
    constructor
    · rw [hev]
      simp only [List.count_append]
      omega
    · rw [hev]
      simp only [List.count_append, hCs, hDs]
      omega
  · intro hmem
    rw [hjets] at hmem
    have hj2c : ((forEachSplice (collideJetFrame ufo)
        (forEachSplice (jetFrame now ufo) jets).1).1.map Jet.emitter).count
          j.emitter ≠ 0 :=
      fun h => (List.count_eq_zero.mp h) hmem
    rw [hev]
    simp only [List.count_append]
    omega

/-- Helper: resource accounting for one projectile across a full
frame. -/
theorem frameStep_missile_release (now : ℝ) (ufo : Vec3)
    (jets : List Jet) (missiles : List Missile) (gs : GameState)
    (hnodup : ((jets.map Jet.emitter) ++ (missiles.map Missile.emitter)).Nodup)
    (m : Missile) (hm : m ∈ missiles) :
    (m.emitter ∉ ((frameStep now ufo jets missiles gs).missiles.map Missile.emitter) →
      (frameStep now ufo jets missiles gs).events.count
        (GEvent.removeEmitter m.emitter) = 1) ∧
    (m.emitter ∈ ((frameStep now ufo jets missiles gs).missiles.map Missile.emitter) →
      (frameStep now ufo jets missiles gs).events.count
        (GEvent.removeEmitter m.emitter) = 0) := by
  have hms : (frameStep now ufo jets missiles gs).missiles =
      (forEachSplice (collideMissileFrame ufo)
        (forEachSplice (missileFrame ufo) missiles).1).1 := rfl
  have hev : (frameStep now ufo jets missiles gs).events =
      (forEachSplice (jetFrame now ufo) jets).2
        ++ (forEachSplice (missileFrame ufo) missiles).2
        ++ ((forEachSplice (collideJetFrame ufo)
              (forEachSplice (jetFrame now ufo) jets).1).2
            ++ (forEachSplice (collideMissileFrame ufo)
                  (forEachSplice (missileFrame ufo) missiles).1).2) := rfl
  obtain ⟨hnj, hnm, hdisj⟩ := List.nodup_append.mp hnodup
  have hmm : m.emitter ∈ missiles.map Missile.emitter := List.mem_map_of_mem _ hm
  have hA := forEachSplice_count (jetFrame now ufo) Jet.emitter
    GEvent.removeEmitter m.emitter jets
    (fun a _ => jetFrame_emitter now ufo a)
    (fun a _ => jetFrame_count_removeEmitter now ufo a m.emitter)
  have hB := forEachSplice_count (collideJetFrame ufo) Jet.emitter
    GEvent.removeEmitter m.emitter (forEachSplice (jetFrame now ufo) jets).1
    (fun a _ => by rw [collideJetFrame_fst])
    (fun a _ => collideJetFrame_count_removeEmitter ufo a m.emitter)
  have hC := forEachSplice_count (missileFrame ufo) Missile.emitter
    GEvent.removeEmitter m.emitter missiles
    (fun a _ => missileFrame_emitter ufo a)
    (fun a _ => missileFrame_count_removeEmitter ufo a m.emitter)
  have hD := forEachSplice_count (collideMissileFrame ufo) Missile.emitter
    GEvent.removeEmitter m.emitter (forEachSplice (missileFrame ufo) missiles).1
    (fun a _ => by rw [collideMissileFrame_fst])
    (fun a _ => collideMissileFrame_count_removeEmitter ufo a m.emitter)
  have hin1 : (missiles.map Missile.emitter).count m.emitter = 1 :=
    List.count_eq_one_of_mem hnm hmm
  have hjets0 : (jets.map Jet.emitter).count m.emitter = 0 := by
    rw [List.count_eq_zero]
    intro hmemj
    exact (hdisj hmemj) hmm
  constructor
  · intro hnot
    rw [hms] at hnot
    have hm2c : ((forEachSplice (collideMissileFrame ufo)
        (forEachSplice (missileFrame ufo) missiles).1).1.map
          Missile.emitter).count m.emitter = 0 :=
      List.count_eq_zero.mpr hnot
    rw [hev]
    simp only [List.count_append]
    omega
  · intro hmem
    rw [hms] at hmem
    have hm2c : ((forEachSplice (collideMissileFrame ufo)
        (forEachSplice (missileFrame ufo) missiles).1).1.map
          Missile.emitter).count m.emitter ≠ 0 :=
      fun h => (List.count_eq_zero.mp h) hmem
    rw [hev]
    simp only [List.count_append]
    omega

/-- C9: in any frame, every attacker and every projectile that leaves
its registry (by collision, out-of-bounds despawn, or age-out) has its
emitter-release event issued exactly once, and every removed attacker
(whose engine sound is playing, as it is from creation until removal)
also gets exactly one sound-stop, all within the same frame; entities
that stay in their registry get no release — so no emitter or audio
handle is leaked or double-released across frames. -/
theorem emitter_release_exactly_once (now : ℝ) (ufo : Vec3)
    (jets : List Jet) (missiles : List Missile) (gs : GameState)
    (hnodup : ((jets.map Jet.emitter) ++ (missiles.map Missile.emitter)).Nodup)
    (hsnodup : (jets.map Jet.sound).Nodup)
    (hplay : ∀ j ∈ jets, j.soundPlaying = true) :
    (∀ j ∈ jets,
      (j.emitter ∉ ((frameStep now ufo jets missiles gs).jets.map Jet.emitter) →
        (frameStep now ufo jets missiles gs).events.count
          (GEvent.removeEmitter j.emitter) = 1 ∧
        (frameStep now ufo jets missiles gs).events.count
          (GEvent.stopSound j.sound) = 1) ∧
      (j.emitter ∈ ((frameStep now ufo jets missiles gs).jets.map Jet.emitter) →
        (frameStep now ufo jets missiles gs).events.count
          (GEvent.removeEmitter j.emitter) = 0)) ∧
    (∀ m ∈ missiles,
      (m.emitter ∉ ((frameStep now ufo jets missiles gs).missiles.map
          Missile.emitter) →
        (frameStep now ufo jets missiles gs).events.count
          (GEvent.removeEmitter m.emitter) = 1) ∧
      (m.emitter ∈ ((frameStep now ufo jets missiles gs).missiles.map
          Missile.emitter) →
        (frameStep now ufo jets missiles gs).events.count
          (GEvent.removeEmitter m.emitter) = 0)) :=
  ⟨fun j hj => frameStep_jet_release now ufo jets missiles gs hnodup hsnodup
      hplay j hj,
   fun m hm => frameStep_missile_release now ufo jets missiles gs hnodup m hm⟩

/-- Witness for C9: a single playing-sound jet colliding with the
player, with no missiles, satisfies the distinctness hypotheses and
the release-accounting conclusion. -/
theorem emitter_release_exactly_once_witness :
    ((([jetW9].map Jet.emitter) ++ (([] : List Missile).map Missile.emitter)).Nodup ∧
     ([jetW9].map Jet.sound).Nodup ∧
     (∀ j ∈ [jetW9], j.soundPlaying = true)) ∧
    ((∀ j ∈ [jetW9],
      (j.emitter ∉ ((frameStep 0 ⟨0, 20, 0⟩ [jetW9] [] initGameState).jets.map
          Jet.emitter) →
        (frameStep 0 ⟨0, 20, 0⟩ [jetW9] [] initGameState).events.count
          (GEvent.removeEmitter j.emitter) = 1 ∧
        (frameStep 0 ⟨0, 20, 0⟩ [jetW9] [] initGameState).events.count
          (GEvent.stopSound j.sound) = 1) ∧
      (j.emitter ∈ ((frameStep 0 ⟨0, 20, 0⟩ [jetW9] [] initGameState).jets.map
          Jet.emitter) →
        (frameStep 0 ⟨0, 20, 0⟩ [jetW9] [] initGameState).events.count
          (GEvent.removeEmitter j.emitter) = 0)) ∧
    (∀ m ∈ ([] : List Missile),
      (m.emitter ∉ ((frameStep 0 ⟨0, 20, 0⟩ [jetW9] [] initGameState).missiles.map
          Missile.emitter) →
        (frameStep 0 ⟨0, 20, 0⟩ [jetW9] [] initGameState).events.count
          (GEvent.removeEmitter m.emitter) = 1) ∧
      (m.emitter ∈ ((frameStep 0 ⟨0, 20, 0⟩ [jetW9] [] initGameState).missiles.map
          Missile.emitter) →
        (frameStep 0 ⟨0, 20, 0⟩ [jetW9] [] initGameState).events.count
          (GEvent.removeEmitter m.emitter) = 0))) :=
  ⟨⟨by decide, by decide, by decide⟩,
   emitter_release_exactly_once 0 ⟨0, 20, 0⟩ [jetW9] [] initGameState
     (by decide) (by decide) (by decide)⟩

end UfoGame
